import Mathlib

/-!
# Verification of the per-camera emotion-analysis core

Shallow embedding of the state-tracking and scheduling core of the
AI-Interview-Pro repository:

* `CameraState` and its methods (`src/models/camera_state.py`),
* the per-frame transition and result-handling logic of
  `EmotionAnalysisSystem.process_frame` (`src/project_refactored.py`),
* the global exit check `EmotionAnalysisSystem.should_exit`,
* the frame-skip submission logic of `AsyncDeepFaceAnalyzer.submit_frame`
  and the single-slot result mailbox (`src/utils/async_analysis.py`),
* the bounded-retry camera opener `open_camera_with_retry`
  (`src/utils/camera.py`).

Timestamps and confidences (Python floats) are modelled as rationals; ages
as integers.  Python truthiness tests on optional values (`if x:` where
`x` may be `None`, `0`, `0.0` or `""`) are modelled by explicit `truthy`
helpers.  Each per-frame call of `time.time()` inside one invocation is
modelled by a single time parameter `t` for that invocation.
-/

namespace AIPro

/-- Python truthiness of an optional int: `None` and `0` are falsy. -/
def optIntTruthy : Option ℤ → Bool
  | none => false
  | some a => a != 0

/-- Python truthiness of an optional string: `None` and `""` are falsy. -/
def optStrTruthy : Option String → Bool
  | none => false
  | some g => g != ""

/-- Python truthiness of an optional float: `None` and `0.0` are falsy. -/
def optRatTruthy : Option ℚ → Bool
  | none => false
  | some q => q != 0

/-- `CameraState` from `src/models/camera_state.py`: all per-camera
detection state, observation history and cached demographics. -/
structure CameraState where
  person_detected : Bool
  session_end_detected : Bool
  detection_start_time : Option ℚ
  session_end_start_time : Option ℚ
  low_confidence_start : Option ℚ
  ages : List ℤ
  genders : List (String × ℚ)
  emotions : List String
  cached_age : Option ℤ
  cached_gender : Option String
  cached_gender_confidence : Option ℚ
deriving Repr, DecidableEq

/-- The dataclass default values: the state a fresh `CameraState()` has. -/
def CameraState.init : CameraState :=
  { person_detected := false
    session_end_detected := false
    detection_start_time := none
    session_end_start_time := none
    low_confidence_start := none
    ages := []
    genders := []
    emotions := []
    cached_age := none
    cached_gender := none
    cached_gender_confidence := none }

/-- `CameraState.reset`: sets every field back to its initial value,
including clearing `ages`, `genders` and `emotions`
(`self.ages.clear()` etc.). -/
def CameraState.reset (s : CameraState) : CameraState :=
  { s with
    person_detected := false
    session_end_detected := false
    detection_start_time := none
    session_end_start_time := none
    low_confidence_start := none
    ages := []
    genders := []
    emotions := []
    cached_age := none
    cached_gender := none
    cached_gender_confidence := none }

/-- `CameraState.cache_demographics(age, gender, gender_confidence)`:
if `age is not None`, set `cached_age` and append to `ages`; if both
`gender` and `gender_confidence` are not `None`, set the cached gender
fields and append to `genders`. -/
def CameraState.cache_demographics (s : CameraState) (age : Option ℤ)
    (gender : Option String) (gender_confidence : Option ℚ) : CameraState :=
  let s1 :=
    match age with
    | some a => { s with cached_age := some a, ages := s.ages ++ [a] }
    | none => s
  match gender, gender_confidence with
  | some g, some gc =>
      { s1 with cached_gender := some g, cached_gender_confidence := some gc,
                genders := s1.genders ++ [(g, gc)] }
  | _, _ => s1

/-- `CameraState.get_elapsed_time(current_time)`: `None` when no
detection is being tracked, else `current_time - detection_start_time`. -/
def CameraState.get_elapsed_time (s : CameraState) (current_time : ℚ) : Option ℚ :=
  match s.detection_start_time with
  | none => none
  | some t0 => some (current_time - t0)

/-- `CameraState.should_analyze_demographics(current_time, threshold)`:
false when `detection_start_time is None`, else whether
`current_time - detection_start_time <= threshold` (default threshold 8.0). -/
def CameraState.should_analyze_demographics (s : CameraState)
    (current_time : ℚ) (threshold : ℚ) : Bool :=
  match s.detection_start_time with
  | none => false
  | some t0 => decide (current_time - t0 ≤ threshold)

/-- The fields of an analyzer result dictionary that the demographic
caching and splicing logic of `process_frame` reads and writes. -/
structure AnalysisResult where
  age : Option ℤ
  gender : Option String
  gender_confidence : Option ℚ
deriving Repr, DecidableEq

/-- The classification part of `EmotionAnalysisSystem.process_frame`
(`src/project_refactored.py`): updates the detection flags and timers from
the classifier output `(class_name, confidence)` at time `t`.  The boolean
is true when the function returns `'stop'` early (low confidence held for
more than 3 seconds). -/
def classifyUpdate (s : CameraState) (t : ℚ) (class_name : String)
    (confidence : ℚ) : CameraState × Bool :=
  if class_name = "Class 1" then
    -- low-confidence bookkeeping, possibly returning 'stop'
    let lowConf :
        CameraState × Bool :=
      if confidence < 1 then
        match s.low_confidence_start with
        | none => ({ s with low_confidence_start := some t }, false)
        | some lcs => if t - lcs > 3 then (s, true) else (s, false)
      else ({ s with low_confidence_start := none }, false)
    if lowConf.2 then (lowConf.1, true)
    else
      let s1 := lowConf.1
      let s2 :=
        if s1.person_detected then s1
        else { s1 with person_detected := true, detection_start_time := some t }
      ({ s2 with session_end_detected := false }, false)
  else if class_name = "Class 2" then
    let s1 :=
      if s.session_end_detected then s
      else { s with session_end_detected := true, session_end_start_time := some t }
    ({ s1 with person_detected := false }, false)
  else
    ({ s with person_detected := false, session_end_detected := false }, false)

/-- The result-handling part of `EmotionAnalysisSystem.process_frame`: given
the (optional) result pulled from the analyzer, cache demographics while the
demographic window is open and splice cached demographics into results that
carry none.  Returns the updated state, the returned result, and whether
`cache_demographics` was invoked during this call. -/
def handleResult (s : CameraState) (t : ℚ) (r0 : Option AnalysisResult) :
    CameraState × Option AnalysisResult × Bool :=
  match r0 with
  | none => (s, none, false)
  | some r =>
    -- if result.get('age') and result.get('gender'):
    let cachingStep : CameraState × Bool :=
      if optIntTruthy r.age && optStrTruthy r.gender then
        -- include_demographics = state.should_analyze_demographics(time.time())
        if s.should_analyze_demographics t 8 then
          (s.cache_demographics r.age r.gender r.gender_confidence, true)
        else (s, false)
      else (s, false)
    let s1 := cachingStep.1
    -- if not result.get('age') and state.cached_age: splice cached values
    let rOut :=
      if !optIntTruthy r.age && optIntTruthy s1.cached_age then
        { r with age := s1.cached_age, gender := s1.cached_gender,
                 gender_confidence := s1.cached_gender_confidence }
      else r
    (s1, some rOut, cachingStep.2)

/-- The value `process_frame` hands back to the main loop: `'stop'`, an
analysis-result dictionary, or `None`. -/
inductive Outcome where
  | stop
  | result (r : AnalysisResult)
  | nothing
deriving Repr, DecidableEq

/-- `EmotionAnalysisSystem.process_frame` as a pure per-frame step: runs the
classification update, then (unless it stopped) the result handling with
whatever result `analyzer.get_result` produced this cycle.  The analyzer
submission in between does not modify the camera state and is modelled
separately (`submit_frame`).  The final boolean records whether
`cache_demographics` was invoked during the call. -/
def process_frame (s : CameraState) (t : ℚ) (class_name : String)
    (confidence : ℚ) (r0 : Option AnalysisResult) :
    CameraState × Outcome × Bool :=
  let cu := classifyUpdate s t class_name confidence
  if cu.2 then (cu.1, Outcome.stop, false)
  else
    let hr := handleResult cu.1 t r0
    (hr.1,
     match hr.2.1 with
     | some r => Outcome.result r
     | none => Outcome.nothing,
     hr.2.2)

/-- One external event applied to a camera's state: a processed frame
(with its classifier output and the analyzer result available that cycle)
or a `reset()` call. -/
inductive Action where
  | frame (t : ℚ) (class_name : String) (confidence : ℚ)
      (r0 : Option AnalysisResult)
  | reset
deriving Repr

/-- The state after one action. -/
def stepAction (s : CameraState) : Action → CameraState
  | .frame t cn conf r0 => (process_frame s t cn conf r0).1
  | .reset => s.reset

/-- The state after a sequence of actions. -/
def runSteps (s : CameraState) (as : List Action) : CameraState :=
  as.foldl stepAction s

/-- Run a sequence of actions, counting how many times
`cache_demographics` is invoked by `process_frame` along the way. -/
def runCacheCount (s : CameraState) (cnt : ℕ) : List Action → CameraState × ℕ
  | [] => (s, cnt)
  | .reset :: rest => runCacheCount s.reset cnt rest
  | .frame t cn conf r0 :: rest =>
      let pf := process_frame s t cn conf r0
      runCacheCount pf.1 (cnt + if pf.2.2 then 1 else 0) rest

/-- States of a camera reachable from the initial `CameraState` by
per-frame transitions and `reset()` calls. -/
inductive Reachable : CameraState → Prop where
  | init : Reachable CameraState.init
  | step (s : CameraState) (a : Action) : Reachable s → Reachable (stepAction s a)

/-- `EmotionAnalysisSystem.should_exit` (`src/project_refactored.py`):
true when some tracked camera has `session_end_detected` with a truthy
`session_end_start_time` more than 3 seconds in the past. -/
def should_exit (camera_states : List CameraState) (now : ℚ) : Bool :=
  camera_states.any fun s =>
    s.session_end_detected && optRatTruthy s.session_end_start_time &&
      decide (3 < now - s.session_end_start_time.getD 0)

/-- The metadata dictionary `submit_frame` enqueues
(`src/utils/async_analysis.py`): the frame (abstracted to an identifier),
the optional classifier hints and the submission timestamp. -/
structure FrameData where
  frame : ℕ
  class_name : Option String
  confidence : Option ℚ
  timestamp : ℚ
deriving Repr, DecidableEq

/-- The submission-side state of `AsyncDeepFaceAnalyzer`: the running flag,
the frame-skip factor, the monotonically incremented submission counter and
the bounded input queue (`queue.Queue(maxsize=3)`, front = oldest). -/
structure AnalyzerState where
  running : Bool
  frame_skip : ℕ
  frame_counter : ℕ
  frame_queue : List FrameData
deriving Repr, DecidableEq

/-- `AsyncDeepFaceAnalyzer.submit_frame`: returns unchanged when not
running; otherwise increments `frame_counter`, skips the frame unless the
counter is divisible by `frame_skip`, and otherwise enqueues it, first
evicting the oldest queued frame if the queue is full.  The boolean records
whether this call enqueued its frame. -/
def submit_frame (a : AnalyzerState) (fd : FrameData) : AnalyzerState × Bool :=
  if !a.running then (a, false)
  else
    let c := a.frame_counter + 1
    if c % a.frame_skip ≠ 0 then ({ a with frame_counter := c }, false)
    else
      let q :=
        if 3 ≤ a.frame_queue.length then a.frame_queue.drop 1
        else a.frame_queue
      ({ a with frame_counter := c, frame_queue := q ++ [fd] }, true)

/-- The per-call enqueue decisions of a sequence of `submit_frame` calls. -/
def submitFlags (a : AnalyzerState) : List FrameData → List Bool
  | [] => []
  | fd :: rest =>
      let sf := submit_frame a fd
      sf.2 :: submitFlags sf.1 rest

/-- The result side of `AsyncDeepFaceAnalyzer`: the bounded result queue
(`queue.Queue(maxsize=1)`, front = oldest) and the `latest_result` cache. -/
structure ResultMailbox where
  result_queue : List AnalysisResult
  latest_result : Option AnalysisResult
deriving Repr, DecidableEq

/-- `AsyncDeepFaceAnalyzer.get_result` with `timeout = 0`: drain every
queued result into `latest_result` (later entries overwrite earlier ones),
then return `latest_result`. -/
def get_result (m : ResultMailbox) : Option AnalysisResult × ResultMailbox :=
  let latest := m.result_queue.foldl (fun _ r => some r) m.latest_result
  (latest, { result_queue := [], latest_result := latest })

/-- The publishing step of `AsyncDeepFaceAnalyzer._worker_loop` for a
successful analysis: drain any unconsumed result from the queue, then
`put_nowait` the new one; `latest_result` is untouched by the worker. -/
def worker_publish (m : ResultMailbox) (r : AnalysisResult) : ResultMailbox :=
  { m with result_queue := [r] }

/-- The error raised when a camera cannot be opened
(`src/exceptions.py`, `CameraOpenError`). -/
structure CameraOpenError where
  camera_id : ℕ
deriving Repr, DecidableEq

/-- The retry loop of `open_camera_with_retry` (`src/utils/camera.py`),
by the number of loop iterations that remain.  `attemptOpens i` tells
whether the `i`-th `cv2.VideoCapture(camera_id)` call yields an opened
capture.  Returns the outcome — `Except.ok (some cap)` on success,
`Except.error` when the last attempt fails, `Except.ok none` for the
Python fall-through when the loop body never runs — paired with the number
of `time.sleep(retry_delay)` calls performed. -/
def openCameraGo (attemptOpens : ℕ → Bool) (camera_id : ℕ) :
    ℕ → ℕ → Except CameraOpenError (Option ℕ) × ℕ
  | _attempt, 0 => (Except.ok none, 0)
  | attempt, remaining + 1 =>
    if attemptOpens attempt then (Except.ok (some camera_id), 0)
    else if remaining = 0 then (Except.error ⟨camera_id⟩, 0)
    else
      ((openCameraGo attemptOpens camera_id (attempt + 1) remaining).1,
       (openCameraGo attemptOpens camera_id (attempt + 1) remaining).2 + 1)

/-- `open_camera_with_retry(camera_id, max_retries, retry_delay)`:
`for attempt in range(max_retries)` starting at attempt 0. -/
def open_camera_with_retry (attemptOpens : ℕ → Bool) (camera_id : ℕ)
    (max_retries : ℕ) : Except CameraOpenError (Option ℕ) × ℕ :=
  openCameraGo attemptOpens camera_id 0 max_retries

/-! ## Helper lemmas -/

/-- `cache_demographics` never touches the detection flags or timers. -/
theorem cache_demographics_preserves_flags (s : CameraState) (a : Option ℤ)
    (g : Option String) (gc : Option ℚ) :
    (s.cache_demographics a g gc).person_detected = s.person_detected ∧
    (s.cache_demographics a g gc).session_end_detected = s.session_end_detected ∧
    (s.cache_demographics a g gc).detection_start_time = s.detection_start_time ∧
    (s.cache_demographics a g gc).session_end_start_time = s.session_end_start_time := by
  unfold CameraState.cache_demographics
  cases a <;> cases g <;> cases gc <;> simp

/-- The result-handling step never touches the detection flags or timers. -/
theorem handleResult_preserves_flags (s : CameraState) (t : ℚ)
    (r0 : Option AnalysisResult) :
    (handleResult s t r0).1.person_detected = s.person_detected ∧
    (handleResult s t r0).1.session_end_detected = s.session_end_detected ∧
    (handleResult s t r0).1.detection_start_time = s.detection_start_time ∧
    (handleResult s t r0).1.session_end_start_time = s.session_end_start_time := by
  cases r0 with
  | none => simp [handleResult]
  | some r =>
    simp only [handleResult]
    split
    · split
      · exact cache_demographics_preserves_flags ..
      · exact ⟨rfl, rfl, rfl, rfl⟩
    · exact ⟨rfl, rfl, rfl, rfl⟩

/-! ## C10 — `cache_demographics` partial update -/

/-- C10: `cache_demographics` appends to `ages` and sets `cached_age` only
when the `age` argument is present; it sets the cached gender fields and
appends to `genders` only when both `gender` and `gender_confidence` are
present; with all arguments absent it leaves the state unchanged. -/
theorem cache_demographics_conditional_update :
    ∀ (s : CameraState) (age : Option ℤ) (g : Option String) (gc : Option ℚ),
      ((s.cache_demographics none g gc).cached_age = s.cached_age ∧
       (s.cache_demographics none g gc).ages = s.ages) ∧
      (∀ a : ℤ,
        (s.cache_demographics (some a) g gc).cached_age = some a ∧
        (s.cache_demographics (some a) g gc).ages = s.ages ++ [a]) ∧
      ((s.cache_demographics age g none).cached_gender = s.cached_gender ∧
       (s.cache_demographics age g none).cached_gender_confidence
          = s.cached_gender_confidence ∧
       (s.cache_demographics age g none).genders = s.genders) ∧
      ((s.cache_demographics age none gc).cached_gender = s.cached_gender ∧
       (s.cache_demographics age none gc).cached_gender_confidence
          = s.cached_gender_confidence ∧
       (s.cache_demographics age none gc).genders = s.genders) ∧
      (∀ (gv : String) (gcv : ℚ),
        (s.cache_demographics age (some gv) (some gcv)).cached_gender = some gv ∧
        (s.cache_demographics age (some gv) (some gcv)).cached_gender_confidence
            = some gcv ∧
        (s.cache_demographics age (some gv) (some gcv)).genders
            = s.genders ++ [(gv, gcv)]) ∧
      (s.cache_demographics none none none = s) := by
  intro s age g gc
  cases age <;> cases g <;> cases gc <;>
    simp [CameraState.cache_demographics]

/-! ## C5 — what `reset()` does to the observation history -/

/-- A state with a nonempty observation history, as left by a session. -/
def c5State : CameraState :=
  { CameraState.init with
    person_detected := true
    detection_start_time := some 1
    ages := [30]
    genders := [("Man", 9/10)]
    emotions := ["happy"] }

/-- C5 counterexample: `reset()` does **not** leave the accumulated
observation histories unchanged — it clears `emotions`, `ages` and
`genders` along with the flags and timestamps. -/
theorem reset_history_counterexample :
    c5State.emotions = ["happy"] ∧ c5State.reset.emotions = [] ∧
    c5State.ages = [30] ∧ c5State.reset.ages = [] ∧
    c5State.genders = [("Man", 9/10)] ∧ c5State.reset.genders = [] := by
  refine ⟨rfl, rfl, rfl, rfl, rfl, rfl⟩

/-- C5 amended: `reset()` clears the detection flags and timestamps **and**
the observation histories and cached demographics — it returns the state to
the initial `CameraState` value, surviving nothing. -/
theorem reset_returns_initial (s : CameraState) :
    s.reset = CameraState.init ∧
    s.reset.person_detected = false ∧
    s.reset.session_end_detected = false ∧
    s.reset.detection_start_time = none ∧
    s.reset.session_end_start_time = none ∧
    s.reset.emotions = [] ∧ s.reset.ages = [] ∧ s.reset.genders = [] :=
  ⟨rfl, rfl, rfl, rfl, rfl, rfl, rfl, rfl⟩

/-! ## C7 — the demographic-analysis window predicate -/

/-- C7: `should_analyze_demographics(t, threshold)` is true exactly when a
detection is being tracked and `t - detection_start_time ≤ threshold`;
moreover `cache_demographics` is only invoked while this predicate holds at
the default window 8, and a result with no (truthy) age gets the cached
demographic values spliced in instead of fresh analysis. -/
theorem should_analyze_demographics_iff :
    ∀ (s : CameraState) (t threshold : ℚ),
      (s.should_analyze_demographics t threshold = true ↔
        ∃ t0 : ℚ, s.detection_start_time = some t0 ∧ t - t0 ≤ threshold) ∧
      (∀ r : AnalysisResult, (handleResult s t (some r)).2.2 = true →
        s.should_analyze_demographics t 8 = true) ∧
      (∀ r : AnalysisResult, optIntTruthy r.age = false →
        optIntTruthy s.cached_age = true →
        (handleResult s t (some r)).2.1
          = some { age := s.cached_age, gender := s.cached_gender,
                   gender_confidence := s.cached_gender_confidence }) := by
  intro s t threshold
  refine ⟨?_, ?_, ?_⟩
  · unfold CameraState.should_analyze_demographics
    cases h : s.detection_start_time with
    | none => simp
    | some t0 => simp
  · intro r hr
    simp only [handleResult] at hr
    by_cases h1 : (optIntTruthy r.age && optStrTruthy r.gender) = true
    · simp only [h1, if_true] at hr
      by_cases h2 : s.should_analyze_demographics t 8 = true
      · exact h2
      · simp [h2] at hr
    · simp [h1] at hr
  · intro r hage hcached
    simp only [handleResult]
    have h1 : (optIntTruthy r.age && optStrTruthy r.gender) = false := by
      simp [hage]
    simp [h1, hage, hcached]

/-- C7 witness: at `t = 10` with detection started at `1`, the predicate
holds for threshold `9` but the cached splice applies to an age-less
result. -/
def c7State : CameraState :=
  { CameraState.init with
    person_detected := true
    detection_start_time := some 1
    cached_age := some 30
    cached_gender := some "Man"
    cached_gender_confidence := some (9/10) }

theorem should_analyze_demographics_iff_witness :
    (handleResult c7State 10 (some ⟨none, none, none⟩)).2.1
      = some { age := some 30, gender := some "Man",
               gender_confidence := some (9/10) } :=
  (should_analyze_demographics_iff c7State 10 8).2.2 ⟨none, none, none⟩
    (by decide) (by decide)

/-! ## C8 — at-most-one result mailbox -/

/-- C8: after a `get_result(0)` call the result queue is drained (so at
most one result — the `latest_result` slot — is buffered), a second
`get_result(0)` with no interleaved worker publication returns the very
same result and leaves the mailbox unchanged, and the worker's publish
step never leaves more than one queued result. -/
theorem get_result_at_most_one :
    ∀ m : ResultMailbox,
      (get_result (get_result m).2).1 = (get_result m).1 ∧
      (get_result (get_result m).2).2 = (get_result m).2 ∧
      (get_result m).2.result_queue = [] ∧
      (∀ r : AnalysisResult, (worker_publish m r).result_queue.length ≤ 1) := by
  intro m
  refine ⟨rfl, rfl, rfl, fun r => ?_⟩
  simp [worker_publish]

/-! ## C6 — the global exit check -/

/-- C6: for camera states whose recorded `session_end_start_time`
timestamps are positive (as every `time.time()` stamp is), `should_exit`
returns true exactly when **some** tracked camera has `session_end_detected`
with its `session_end_start_time` more than 3 seconds in the past; the
existential form shows the other cameras' states have no influence. -/
theorem should_exit_iff :
    ∀ (camera_states : List CameraState) (now : ℚ),
      (∀ s ∈ camera_states, ∀ t0 : ℚ,
        s.session_end_start_time = some t0 → 0 < t0) →
      (should_exit camera_states now = true ↔
        ∃ s ∈ camera_states, s.session_end_detected = true ∧
          ∃ t0 : ℚ, s.session_end_start_time = some t0 ∧ 3 < now - t0) := by
  intro camera_states now hpos
  unfold should_exit
  rw [List.any_eq_true]
  constructor
  · rintro ⟨s, hs, hcond⟩
    simp only [Bool.and_eq_true, decide_eq_true_eq] at hcond
    obtain ⟨⟨hdet, htruthy⟩, hgt⟩ := hcond
    cases hst : s.session_end_start_time with
    | none => rw [hst] at htruthy; simp [optRatTruthy] at htruthy
    | some t0 =>
      refine ⟨s, hs, hdet, t0, hst, ?_⟩
      rw [hst] at hgt
      simpa using hgt
  · rintro ⟨s, hs, hdet, t0, hst, hgt⟩
    refine ⟨s, hs, ?_⟩
    have ht0 : (0 : ℚ) < t0 := hpos s hs t0 hst
    simp only [Bool.and_eq_true, decide_eq_true_eq]
    refine ⟨⟨hdet, ?_⟩, ?_⟩
    · rw [hst]; simp [optRatTruthy]; exact ne_of_gt ht0
    · rw [hst]; simpa using hgt

/-- A camera state on which the session-end timer has been running since
time 1, and a camera state still reporting presence. -/
def cExitState : CameraState :=
  { CameraState.init with
    session_end_detected := true
    session_end_start_time := some 1 }

def cPresenceState : CameraState :=
  { CameraState.init with
    person_detected := true
    detection_start_time := some 2 }

/-- C6 witness: at `now = 5`, camera A's session-end timer (started at 1)
exceeds 3 seconds, so the global exit fires although camera B still
reports presence. -/
theorem should_exit_iff_witness :
    should_exit [cExitState, cPresenceState] 5 = true :=
  (should_exit_iff [cExitState, cPresenceState] 5
    (by
      intro s hs t0 ht
      simp only [List.mem_cons, List.mem_singleton, List.not_mem_nil,
        or_false] at hs
      rcases hs with rfl | rfl
      · injection (show some (1 : ℚ) = some t0 from ht) with h2
        rw [← h2]; norm_num
      · exact Option.noConfusion (show (none : Option ℚ) = some t0 from ht))).mpr
    ⟨cExitState, by simp, rfl, 1, rfl, by norm_num⟩

/-! ## C9 — bounded-retry camera open -/

/-- When every attempt in the remaining window fails, the retry loop ends
with `CameraOpenError` and sleeps once between consecutive attempts. -/
theorem openCameraGo_all_fail (attemptOpens : ℕ → Bool) (camera_id : ℕ) :
    ∀ (remaining attempt : ℕ), 1 ≤ remaining →
      (∀ i, attempt ≤ i → i < attempt + remaining → attemptOpens i = false) →
      openCameraGo attemptOpens camera_id attempt remaining
        = (Except.error ⟨camera_id⟩, remaining - 1) := by
  intro remaining
  induction remaining with
  | zero => intro attempt h; exact absurd h (Nat.not_succ_le_zero 0)
  | succ n ih =>
    intro attempt _ hfail
    have h0 : attemptOpens attempt = false := hfail attempt le_rfl (by omega)
    cases n with
    | zero => simp [openCameraGo, h0]
    | succ m =>
      have hrec := ih (attempt + 1) (by omega)
        (fun i _ hi2 => hfail i (by omega) (by omega))
      rw [openCameraGo, h0]
      rw [if_neg (by simp), if_neg (by omega), hrec]
      simp

/-- C9: `open_camera_with_retry` makes at most `max_retries` attempts with
one fixed-delay sleep between consecutive attempts; when every attempt
fails it ends with a fatal `CameraOpenError` — it never returns success
after exhausting the retries. -/
theorem open_camera_retry_exhaustion :
    ∀ (attemptOpens : ℕ → Bool) (camera_id max_retries : ℕ),
      1 ≤ max_retries →
      (∀ i, i < max_retries → attemptOpens i = false) →
      (open_camera_with_retry attemptOpens camera_id max_retries).1
          = Except.error ⟨camera_id⟩ ∧
      (open_camera_with_retry attemptOpens camera_id max_retries).2
          = max_retries - 1 := by
  intro attemptOpens camera_id max_retries h1 hfail
  have := openCameraGo_all_fail attemptOpens camera_id max_retries 0 h1
    (fun i _ hi => hfail i (by omega))
  unfold open_camera_with_retry
  rw [this]
  exact ⟨rfl, rfl⟩

/-- C9 witness: with the default `max_retries = 3` and a camera that never
opens, the call fails with `CameraOpenError` after two inter-attempt
sleeps. -/
theorem open_camera_retry_exhaustion_witness :
    (open_camera_with_retry (fun _ => false) 7 3).1 = Except.error ⟨7⟩ ∧
    (open_camera_with_retry (fun _ => false) 7 3).2 = 2 :=
  open_camera_retry_exhaustion (fun _ => false) 7 3 (by norm_num)
    (fun _ _ => rfl)

/-! ## C2 / C3 — reachable-state invariants of the per-frame transition -/

/-- The classification update preserves the mutual exclusion of
`person_detected` and `session_end_detected`. -/
theorem classifyUpdate_excl (s : CameraState) (t : ℚ) (cn : String) (conf : ℚ)
    (h : (s.person_detected && s.session_end_detected) = false) :
    ((classifyUpdate s t cn conf).1.person_detected &&
      (classifyUpdate s t cn conf).1.session_end_detected) = false := by
  by_cases h1 : cn = "Class 1"
  · by_cases hc : conf < 1
    · cases hl : s.low_confidence_start with
      | none => simp [classifyUpdate, h1, hc, hl]
      | some lcs =>
        by_cases ht : t - lcs > 3
        · simpa [classifyUpdate, h1, hc, hl, ht] using h
        · simp [classifyUpdate, h1, hc, hl, ht]
    · simp [classifyUpdate, h1, hc]
  · by_cases h2 : cn = "Class 2"
    · simp [classifyUpdate, h1, h2]
    · simp [classifyUpdate, h1, h2]

/-- The classification update preserves "a detected person has a start
timestamp". -/
theorem classifyUpdate_det (s : CameraState) (t : ℚ) (cn : String) (conf : ℚ)
    (h : s.person_detected = true → s.detection_start_time.isSome = true) :
    (classifyUpdate s t cn conf).1.person_detected = true →
      (classifyUpdate s t cn conf).1.detection_start_time.isSome = true := by
  by_cases h1 : cn = "Class 1"
  · by_cases hc : conf < 1
    · cases hl : s.low_confidence_start with
      | none =>
        by_cases hp : s.person_detected
        · intro _
          simpa [classifyUpdate, h1, hc, hl, hp] using h hp
        · simp [classifyUpdate, h1, hc, hl, hp]
      | some lcs =>
        by_cases ht : t - lcs > 3
        · simpa [classifyUpdate, h1, hc, hl, ht] using h
        · by_cases hp : s.person_detected
          · intro _
            simpa [classifyUpdate, h1, hc, hl, ht, hp] using h hp
          · simp [classifyUpdate, h1, hc, hl, ht, hp]
    · by_cases hp : s.person_detected
      · intro _
        simpa [classifyUpdate, h1, hc, hp] using h hp
      · simp [classifyUpdate, h1, hc, hp]
  · by_cases h2 : cn = "Class 2"
    · simp [classifyUpdate, h1, h2]
    · simp [classifyUpdate, h1, h2]

/-- One whole action preserves mutual exclusion. -/
theorem stepAction_excl (s : CameraState) (a : Action)
    (h : (s.person_detected && s.session_end_detected) = false) :
    ((stepAction s a).person_detected &&
      (stepAction s a).session_end_detected) = false := by
  cases a with
  | reset => rfl
  | frame t cn conf r0 =>
    show ((process_frame s t cn conf r0).1.person_detected &&
      (process_frame s t cn conf r0).1.session_end_detected) = false
    unfold process_frame
    dsimp only
    split
    · exact classifyUpdate_excl s t cn conf h
    · have hf := handleResult_preserves_flags (classifyUpdate s t cn conf).1 t r0
      rw [hf.1, hf.2.1]
      exact classifyUpdate_excl s t cn conf h

/-- One whole action preserves "a detected person has a start timestamp". -/
theorem stepAction_det (s : CameraState) (a : Action)
    (h : s.person_detected = true → s.detection_start_time.isSome = true) :
    (stepAction s a).person_detected = true →
      (stepAction s a).detection_start_time.isSome = true := by
  cases a with
  | reset => intro hcontra; exact absurd hcontra (by simp [stepAction, CameraState.reset])
  | frame t cn conf r0 =>
    show (process_frame s t cn conf r0).1.person_detected = true →
      (process_frame s t cn conf r0).1.detection_start_time.isSome = true
    unfold process_frame
    dsimp only
    split
    · exact classifyUpdate_det s t cn conf h
    · have hf := handleResult_preserves_flags (classifyUpdate s t cn conf).1 t r0
      rw [hf.1, hf.2.2.1]
      exact classifyUpdate_det s t cn conf h

/-- C3: for every state reachable from the initial `CameraState` via
per-frame classifier transitions (any class name, any confidence, any
analyzer result) and `reset()` calls, `person_detected` and
`session_end_detected` are never both true. -/
theorem mutual_exclusion :
    ∀ s : CameraState, Reachable s →
      ¬(s.person_detected = true ∧ s.session_end_detected = true) := by
  have key : ∀ s : CameraState, Reachable s →
      (s.person_detected && s.session_end_detected) = false := by
    intro s h
    induction h with
    | init => rfl
    | step s' a _ ih => exact stepAction_excl s' a ih
  rintro s h ⟨h1, h2⟩
  have hb := key s h
  rw [h1, h2] at hb
  exact Bool.noConfusion hb

/-- C3 witness: the mutual exclusion holds at the concrete reachable state
obtained after one presence frame. -/
theorem mutual_exclusion_witness :
    ¬((stepAction CameraState.init
        (Action.frame 1 "Class 1" 1 none)).person_detected = true ∧
      (stepAction CameraState.init
        (Action.frame 1 "Class 1" 1 none)).session_end_detected = true) :=
  mutual_exclusion _ (Reachable.step _ _ Reachable.init)

/-- The reachable state after a presence frame at time 1 followed by a
session-end frame at time 2. -/
def c2State : CameraState :=
  runSteps CameraState.init
    [Action.frame 1 "Class 1" 1 none, Action.frame 2 "Class 2" 1 none]

/-- C2 counterexample: the session-end transition clears `person_detected`
but leaves `detection_start_time` set, so a reachable state violates the
claimed iff — `detection_start_time` is `Some 1` while `person_detected`
is false. -/
theorem detection_time_iff_counterexample :
    Reachable c2State ∧ c2State.person_detected = false ∧
      c2State.detection_start_time = some 1 := by
  refine ⟨?_, by decide, by decide⟩
  show Reachable (stepAction (stepAction CameraState.init
    (Action.frame 1 "Class 1" 1 none)) (Action.frame 2 "Class 2" 1 none))
  exact Reachable.step _ _ (Reachable.step _ _ Reachable.init)

/-- C2 amended: only one direction of the iff holds on reachable states —
whenever `person_detected` is true, `detection_start_time` is `Some`; the
converse fails because the session-end and unrecognized-class transitions
clear the flag without clearing the timestamp. -/
theorem person_detected_implies_start_time :
    ∀ s : CameraState, Reachable s → s.person_detected = true →
      s.detection_start_time.isSome = true := by
  intro s h
  induction h with
  | init => intro hcontra; exact absurd hcontra (by decide)
  | step s' a _ ih => exact stepAction_det s' a ih

/-- C2 amended witness: after one presence frame the state has
`person_detected` and a `Some` start timestamp. -/
theorem person_detected_implies_start_time_witness :
    (stepAction CameraState.init
      (Action.frame 1 "Class 1" 1 none)).detection_start_time.isSome = true :=
  person_detected_implies_start_time _ (Reachable.step _ _ Reachable.init)
    (by decide)

/-! ## C4 — frame-skip determinism -/

/-- On a running analyzer, `submit_frame` keeps it running, never changes
the skip factor, always increments the counter, and enqueues exactly when
the incremented counter is divisible by the skip factor. -/
theorem submit_frame_spec (a : AnalyzerState) (fd : FrameData)
    (h : a.running = true) :
    (submit_frame a fd).1.running = true ∧
    (submit_frame a fd).1.frame_skip = a.frame_skip ∧
    (submit_frame a fd).1.frame_counter = a.frame_counter + 1 ∧
    (submit_frame a fd).2 = decide ((a.frame_counter + 1) % a.frame_skip = 0) := by
  unfold submit_frame
  rw [h]
  by_cases hm : (a.frame_counter + 1) % a.frame_skip = 0
  · simp [hm]
  · simp [hm]

/-- The sequence of enqueue decisions depends only on the counter and the
skip factor: decision `j` is "counter + 1 + j divisible by the skip". -/
theorem submitFlags_characterization (fds : List FrameData) :
    ∀ a : AnalyzerState, a.running = true →
      submitFlags a fds = (List.range fds.length).map
        (fun j => decide ((a.frame_counter + 1 + j) % a.frame_skip = 0)) := by
  induction fds with
  | nil => intro a _; rfl
  | cons fd rest ih =>
    intro a h
    have hs := submit_frame_spec a fd h
    show (submit_frame a fd).2 :: submitFlags (submit_frame a fd).1 rest = _
    rw [ih (submit_frame a fd).1 hs.1, hs.2.1, hs.2.2.1, hs.2.2.2]
    rw [List.length_cons, List.range_succ_eq_map, List.map_cons, List.map_map]
    congr 1
    apply List.map_congr_left
    intro j _
    show decide ((a.frame_counter + 1 + 1 + j) % a.frame_skip = 0) = _
    have harith : a.frame_counter + 1 + 1 + j = a.frame_counter + 1 + (j + 1) := by
      omega
    rw [harith]
    rfl

/-- Among `N` consecutive values starting at `m`, exactly one is divisible
by `N`. -/
theorem exists_unique_multiple (m N : ℕ) (hN : 1 ≤ N) :
    ∃! j, j < N ∧ (m + j) % N = 0 := by
  have hNpos : 0 < N := hN
  have hx : (m + (N - m % N) % N) % N = 0 := by
    by_cases h0 : m % N = 0
    · simp [h0, Nat.sub_zero, Nat.mod_self, Nat.add_mod, h0]
    · have hr : m % N < N := Nat.mod_lt _ hNpos
      have hlt : N - m % N < N := by omega
      rw [Nat.mod_eq_of_lt hlt, Nat.add_mod, Nat.mod_eq_of_lt hlt]
      rw [show m % N + (N - m % N) = N by omega, Nat.mod_self]
  refine ⟨(N - m % N) % N, ⟨Nat.mod_lt _ hNpos, hx⟩, ?_⟩
  rintro y ⟨hy, hmod⟩
  have hcong : y ≡ (N - m % N) % N [MOD N] := by
    have hsum : m + y ≡ m + (N - m % N) % N [MOD N] := by
      unfold Nat.ModEq
      rw [hmod, hx]
    exact Nat.ModEq.add_left_cancel' m hsum
  have hxlt : (N - m % N) % N < N := Nat.mod_lt _ hNpos
  unfold Nat.ModEq at hcong
  rw [Nat.mod_eq_of_lt hy, Nat.mod_eq_of_lt hxlt] at hcong
  exact hcong

/-- C4: with `frame_skip = N ≥ 1`, among any `N` consecutive
`submit_frame` calls on a running analyzer exactly one enqueues its frame —
the call whose incremented submission counter is divisible by `N` — and the
decisions are unchanged if the analyzer's queue content is replaced by
anything else. -/
theorem frame_skip_determinism :
    ∀ (a : AnalyzerState) (fds : List FrameData) (N : ℕ),
      a.running = true → a.frame_skip = N → 1 ≤ N → fds.length = N →
      (∃! j, j < N ∧ (submitFlags a fds).getD j false = true) ∧
      (∀ j, j < N → ((submitFlags a fds).getD j false = true ↔
          (a.frame_counter + 1 + j) % N = 0)) ∧
      (∀ q : List FrameData,
          submitFlags { a with frame_queue := q } fds = submitFlags a fds) := by
  intro a fds N hrun hskip hN hlen
  have hchar := submitFlags_characterization fds a hrun
  have hget : ∀ j, j < N → (submitFlags a fds).getD j false
      = decide ((a.frame_counter + 1 + j) % N = 0) := by
    intro j hj
    rw [hchar, hskip, List.getD_eq_getElem?_getD, List.getElem?_map,
      List.getElem?_range (show j < fds.length by omega)]
    rfl
  refine ⟨?_, ?_, ?_⟩
  · obtain ⟨j0, ⟨hj0, hm0⟩, huniq⟩ :=
      exists_unique_multiple (a.frame_counter + 1) N hN
    refine ⟨j0, ⟨hj0, ?_⟩, ?_⟩
    · rw [hget j0 hj0]
      exact decide_eq_true hm0
    · rintro y ⟨hy, hflag⟩
      rw [hget y hy] at hflag
      exact huniq y ⟨hy, of_decide_eq_true hflag⟩
  · intro j hj
    rw [hget j hj]
    exact decide_eq_true_iff
  · intro q
    rw [submitFlags_characterization fds { a with frame_queue := q } hrun,
      submitFlags_characterization fds a hrun]

/-- Two distinct frames for the witness run. -/
def fdA : FrameData := ⟨1, none, none, 0⟩

def fdB : FrameData := ⟨2, none, none, 0⟩

/-- C4 witness: with skip factor 2 and two submissions on a fresh running
analyzer, exactly one call enqueues. -/
theorem frame_skip_determinism_witness :
    ∃! j, j < 2 ∧ (submitFlags ⟨true, 2, 0, []⟩ [fdA, fdB]).getD j false = true :=
  (frame_skip_determinism ⟨true, 2, 0, []⟩ [fdA, fdB] 2 rfl rfl
    (by norm_num) rfl).1

/-! ## C1 — demographic caching under continuous presence -/

/-- A demographically complete analyzer result. -/
def c1Result : AnalysisResult :=
  { age := some 30, gender := some "Man", gender_confidence := some (9/10) }

/-- A continuous-presence run: presence frames (confidence 1) at times 1, 4
and 5; the analyzer delivers demographic results at times 4 and 5, both
strictly inside the 8-second window that opened at time 1. -/
def c1Trace : List Action :=
  [Action.frame 1 "Class 1" 1 none,
   Action.frame 4 "Class 1" 1 (some c1Result),
   Action.frame 5 "Class 1" 1 (some c1Result)]

/-- C1 counterexample: on this run presence is confirmed and held
throughout, yet `cache_demographics` is invoked twice, both times for
results arriving strictly inside the window (elapsed 3 and 4 < 8) — not
"at most once, exactly at the window boundary". -/
theorem cache_boundary_counterexample :
    (runCacheCount CameraState.init 0 c1Trace).2 = 2 ∧
    (runSteps CameraState.init (c1Trace.take 1)).person_detected = true ∧
    (runSteps CameraState.init (c1Trace.take 2)).person_detected = true ∧
    (runSteps CameraState.init c1Trace).person_detected = true ∧
    (runSteps CameraState.init c1Trace).detection_start_time = some 1 := by
  refine ⟨?_, ?_, ?_, ?_, ?_⟩ <;>
    norm_num [c1Trace, c1Result, runCacheCount, runSteps, List.foldl,
      stepAction, process_frame, classifyUpdate, handleResult,
      CameraState.should_analyze_demographics, CameraState.cache_demographics,
      optIntTruthy, optStrTruthy, CameraState.init,
      show ("Man" : String) ≠ "" from by decide,
      show (30 : ℤ) ≠ 0 from by decide]

/-- C1 amended: `cache_demographics` is invoked by `process_frame` exactly
when the call was not stopped, the analyzer delivered a result with truthy
age and gender, and the post-classification state is still within the
8-second demographic window — so it fires once per delivered demographic
result inside the window (boundary included) and never strictly after the
window; there is no single boundary-only caching event. -/
theorem cache_invocation_characterization :
    ∀ (s : CameraState) (t : ℚ) (cn : String) (conf : ℚ)
      (r0 : Option AnalysisResult),
      (process_frame s t cn conf r0).2.2 = true ↔
        (classifyUpdate s t cn conf).2 = false ∧
        ∃ r : AnalysisResult, r0 = some r ∧ optIntTruthy r.age = true ∧
          optStrTruthy r.gender = true ∧
          (classifyUpdate s t cn conf).1.should_analyze_demographics t 8
            = true := by
  intro s t cn conf r0
  unfold process_frame
  dsimp only
  by_cases hstop : (classifyUpdate s t cn conf).2 = true
  · simp [hstop]
  · have hstop' : (classifyUpdate s t cn conf).2 = false :=
      Bool.eq_false_iff.mpr hstop
    rw [if_neg hstop]
    cases r0 with
    | none => simp [handleResult, hstop']
    | some r =>
      cases hage : optIntTruthy r.age <;>
        cases hg : optStrTruthy r.gender <;>
          cases hsad :
            (classifyUpdate s t cn conf).1.should_analyze_demographics t 8 <;>
            simp [handleResult, hstop', hage, hg, hsad]

end AIPro
